import Mathlib

/-!
Shallow embedding of the multi-cloud uploader core (worker.py, tasks.py).

Conventions of the embedding:
* Machine/file sizes are `Nat` (byte counts); wall-clock times are `ℚ`
  (Python floats modelled exactly as rationals; float rounding is not
  modelled, arithmetic on times and speeds is exact).
* Python's `int((a / b) * 100)` on non-negative numbers is truncation,
  i.e. `a * 100 / b` in `Nat` division.
* The status document written by `update_job_progress` is modelled by the
  record fields the code stores into `progress_data`; "a write happened"
  is modelled by explicit booleans / emitted lists.
* External effects (whether credentials are present, whether the S3 client
  upload raised, what the HTTP chunks were, when the cancel sentinel file
  exists) are inputs to the embedded functions.
-/

namespace MultiCloudUploader

/-! ## Destination catalog (tasks.py lines 17-90) -/

/-- The names of the four configured destinations, in the order of the
`CLOUDS` list (tasks.py line 88). -/
def cloudNames : List String := ["Cloudflare R2", "ImpossibleCloud", "Wasabi", "Oracle Cloud"]

/-- `SIZE_LIMIT_GB * 1024**3` with `SIZE_LIMIT_GB = 19.5` (tasks.py lines
358, 366); `19.5 * 1024^3 = 20937965568` exactly, also as a Python float. -/
def sizeLimitBytes : Nat := 20937965568

/-- Whether the bucket-capacity admission check runs for this destination:
tasks.py line 359 checks the name against R2 and Oracle Cloud only. -/
def sizeChecked (name : String) : Bool :=
  name = "Cloudflare R2" || name = "Oracle Cloud"

/-! ## Upload stage (tasks.py `upload_file_to_cloud_task`, lines 339-418) -/

/-- Structured rendering of the `message` string the upload task stores for
a destination; numeric payloads carry the exact byte quantities that the
code formats into the string. -/
inductive UploadMsg where
  /-- "Upload failed: Client initialization failed (check credentials/endpoint)."
  (ConnectionError raised at tasks.py line 352, caught at line 400). -/
  | credsError
  /-- "Upload failed: Temporary file not found ..." (FileNotFoundError
  raised at line 364 or 380, caught at line 400). -/
  | fileNotFound
  /-- "Skipped: Would exceed ... limit by ... GB." — carries the excess in
  bytes (the code prints `excessBytes / 1024**3` formatted as GB). -/
  | excess (excessBytes : Nat)
  /-- "Skipped: File size is 0 bytes." (line 383). -/
  | zeroSize
  /-- "Upload failed: e" for an exception text `e` raised by the transfer
  (caught at line 400, recorded at line 415). -/
  | uploadError (e : String)
  /-- "Complete. ...: url" or "Complete (URL generation failed)." —
  the flag records whether a URL was produced (lines 413-414). -/
  | completedUrl (urlOk : Bool)
  deriving DecidableEq, Repr

/-- One destination's entry in `progress_data['clouds']`: stage,
percentage and message (the final record the upload task leaves). -/
structure CloudRecord where
  stage : String
  percentage : Nat
  msg : UploadMsg
  deriving DecidableEq, Repr

/-- tasks.py lines 379-415: the part of `upload_file_to_cloud_task` after
the admission check — re-check file existence, skip zero-byte files,
perform the transfer, record the outcome.  `upload_err = some e` means
`client.upload_file` raised with text `e`; `none` means it returned. -/
def uploadAfterSizeCheck (file_exists : Bool) (file_size : Nat)
    (upload_err : Option String) (url_ok : Bool) : CloudRecord :=
  if file_exists = false then ⟨"failed", 0, .fileNotFound⟩
  else if file_size = 0 then ⟨"skipped", 0, .zeroSize⟩
  else
    match upload_err with
    | some e => ⟨"failed", 0, .uploadError e⟩
    | none => ⟨"completed", 100, .completedUrl url_ok⟩

/-- tasks.py lines 339-418, `upload_file_to_cloud_task`, as the final
`progress_data['clouds'][name]` record it produces.  `creds_ok = false`
means `initialize_client` returned `None` (missing credentials/endpoint),
so the task raises ConnectionError at line 352, caught at line 400 and
recorded as a `failed` stage at line 415.  For destinations subject to the
size check (R2, Oracle Cloud), `existing_bytes` is what `get_bucket_size`
returned and the admission comparison of line 369 runs first. -/
def upload_file_to_cloud_task (cloud_name : String) (creds_ok file_exists : Bool)
    (file_size existing_bytes : Nat) (upload_err : Option String) (url_ok : Bool) :
    CloudRecord :=
  if creds_ok = false then ⟨"failed", 0, .credsError⟩
  else if sizeChecked cloud_name then
    if file_exists = false then ⟨"failed", 0, .fileNotFound⟩
    else if sizeLimitBytes < existing_bytes + file_size then
      ⟨"skipped", 0, .excess (existing_bytes + file_size - sizeLimitBytes)⟩
    else uploadAfterSizeCheck file_exists file_size upload_err url_ok
  else uploadAfterSizeCheck file_exists file_size upload_err url_ok

/-! ## Progress accumulator (tasks.py `ProgressTracker`, lines 204-242) -/

/-- The mutable state of a `ProgressTracker` instance (tasks.py
`__init__`, lines 206-215); `speed` is the rational value formatted into
`speed_str`. -/
structure ProgressTracker where
  total_size : Nat
  bytes_transferred : Nat
  last_time : ℚ
  last_bytes : Nat
  speed : ℚ
  deriving DecidableEq, Repr

/-- The observable result of one `ProgressTracker.__call__`: the updated
tracker state, the percentage stored into the cloud's record, and whether
`update_job_progress` (a write of the status document) was performed. -/
structure TrackerStep where
  tracker : ProgressTracker
  percentage : Nat
  wrote : Bool
  deriving DecidableEq, Repr

/-- tasks.py lines 217-242, `ProgressTracker.__call__(new_bytes)` at wall
time `current_time`: the byte total and percentage are always updated, the
speed estimate and its bookkeeping only when more than one second passed,
and `update_job_progress` is called unconditionally at line 242. -/
def ProgressTracker.call (t : ProgressTracker) (new_bytes : Nat) (current_time : ℚ) :
    TrackerStep :=
  let bt := t.bytes_transferred + new_bytes
  let percentage := min (bt * 100 / t.total_size) 100
  if current_time - t.last_time > 1 then
    let time_diff := current_time - t.last_time
    let speed := if time_diff > 0 then ((bt : ℚ) - (t.last_bytes : ℚ)) / time_diff else 0
    { tracker := { t with bytes_transferred := bt, last_time := current_time,
                          last_bytes := bt, speed := speed },
      percentage := percentage, wrote := true }
  else
    { tracker := { t with bytes_transferred := bt },
      percentage := percentage, wrote := true }

/-! ## Claims C2, C3, C4 -/

/-- C2 (counterexample): the claim says that when one second has not
elapsed since the last emission, no write to the Status Channel occurs.
Concretely: a tracker whose last emission was at time 10 is called again at
time 10.5 (elapsed 1/2 ≤ 1 second) and a write still occurs
(`update_job_progress` at tasks.py line 242 is unconditional). -/
theorem progress_tracker_flush_counterexample :
    ((21 : ℚ) / 2 - 10 ≤ 1) ∧
      (ProgressTracker.call ⟨100, 0, 10, 0, 0⟩ 5 (21 / 2)).wrote = true := by
  constructor
  · norm_num
  · unfold ProgressTracker.call
    split <;> rfl

/-- C2 (amended): every call of the Progress Accumulator's add operation
flushes a snapshot to the Status Channel; the more-than-one-second check
governs only whether the throughput estimate and the emission bookkeeping
(`last_time`, `last_bytes`) are recomputed, the previous throughput value
being reused otherwise. -/
theorem progress_tracker_write_and_throttle (t : ProgressTracker) (nb : Nat) (ct : ℚ) :
    (t.call nb ct).wrote = true ∧
      (¬ ct - t.last_time > 1 →
        (t.call nb ct).tracker.speed = t.speed ∧
          (t.call nb ct).tracker.last_time = t.last_time ∧
          (t.call nb ct).tracker.last_bytes = t.last_bytes) ∧
      (ct - t.last_time > 1 →
        (t.call nb ct).tracker.last_time = ct ∧
          (t.call nb ct).tracker.last_bytes = t.bytes_transferred + nb) := by
  unfold ProgressTracker.call
  by_cases h : ct - t.last_time > 1 <;> simp [h]

/-- C2 (witness for the amended theorem): instantiated at a concrete
tracker and a call 1/2 second after the last emission. -/
theorem progress_tracker_write_and_throttle_witness :
    (ProgressTracker.call ⟨100, 0, 10, 0, 0⟩ 5 (21 / 2)).wrote = true ∧
      (ProgressTracker.call ⟨100, 0, 10, 0, 0⟩ 5 (21 / 2)).tracker.speed = 0 := by
  refine ⟨(progress_tracker_write_and_throttle ⟨100, 0, 10, 0, 0⟩ 5 (21 / 2)).1, ?_⟩
  have h := ((progress_tracker_write_and_throttle ⟨100, 0, 10, 0, 0⟩ 5 (21 / 2)).2.1
    (by norm_num)).1
  exact h

/-- C3 (counterexample): the claim says a destination with missing
credentials records a `skipped` outcome.  Concretely: for the Wasabi
destination with missing credentials (`initialize_client` returns `None`,
so the task raises ConnectionError at tasks.py line 352, caught at line
400), the recorded stage is `failed`, not `skipped` (line 415). -/
theorem missing_creds_counterexample :
    (upload_file_to_cloud_task "Wasabi" false true 5 0 none true).stage = "failed" ∧
      (upload_file_to_cloud_task "Wasabi" false true 5 0 none true).stage ≠ "skipped" := by
  constructor
  · rfl
  · decide

/-- C3 (amended): for every destination whose required credentials are
missing at upload time, the Upload Stage records a `failed` outcome whose
message is the client-initialization (configuration) error, and the upload
task itself returns normally rather than crashing the process — so sibling
destinations are still processed.  (Separately, missing environment
variables at module import abort the whole process at tasks.py line 114.) -/
theorem missing_creds_failed_outcome (name : String) (file_exists : Bool)
    (file_size existing_bytes : Nat) (upload_err : Option String) (url_ok : Bool) :
    upload_file_to_cloud_task name false file_exists file_size existing_bytes
        upload_err url_ok = ⟨"failed", 0, .credsError⟩ := by
  unfold upload_file_to_cloud_task
  simp

/-- C4: for every destination subject to the capacity ceiling
`L = sizeLimitBytes` (19.5 GiB; in the code these are Cloudflare R2 and
Oracle Cloud, tasks.py lines 357-377), with existing bucket bytes `E` and
new file size `S`: the upload proceeds past admission control (continues
with the post-check upload logic) iff `E + S ≤ L`; otherwise the outcome
is stage `skipped` — distinct from `failed` — and its message carries the
excess amount `E + S - L`. -/
theorem capacity_admission_control (name : String) (hname : sizeChecked name = true)
    (S E : Nat) (upload_err : Option String) (url_ok : Bool) :
    (E + S ≤ sizeLimitBytes →
      upload_file_to_cloud_task name true true S E upload_err url_ok
        = uploadAfterSizeCheck true S upload_err url_ok) ∧
    (sizeLimitBytes < E + S →
      upload_file_to_cloud_task name true true S E upload_err url_ok
          = ⟨"skipped", 0, .excess (E + S - sizeLimitBytes)⟩ ∧
        ("skipped" : String) ≠ "failed") := by
  constructor
  · intro hle
    unfold upload_file_to_cloud_task
    simp [hname, Nat.not_lt.mpr hle]
  · intro hgt
    refine ⟨?_, by decide⟩
    unfold upload_file_to_cloud_task
    simp [hname, hgt]

/-- C4 (witness): Cloudflare R2 with an empty bucket and a 5-byte file is
admitted and the upload proceeds to completion. -/
theorem capacity_admission_control_witness :
    upload_file_to_cloud_task "Cloudflare R2" true true 5 0 none true
      = ⟨"completed", 100, .completedUrl true⟩ := by
  have h := (capacity_admission_control "Cloudflare R2" (by decide) 5 0 none true).1
    (by decide)
  exact h.trans rfl

/-! ## Transfer worker (worker.py `main`, lines 14-147) -/

/-- Outcome of the download task as observed by the worker (worker.py
lines 56-65): `(None, -1)` signals cancellation, `(path, size)` is
success, and a genuine transport error propagates as an exception. -/
inductive DlOutcome where
  | cancelledSignal
  | ok (size : Nat)
  | raised (e : String)
  deriving DecidableEq, Repr

/-- Behaviour of one destination's upload attempt as seen by the worker
loop (worker.py lines 83-89): either `upload_file_to_cloud_task` returned,
leaving `rec` as that destination's record, or it raised with text `e`. -/
inductive UploadBehavior where
  | returns (rec : CloudRecord)
  | raises (e : String)

/-- The stage left in `progress_data['clouds'][name]` after the worker's
per-destination try/except: the task's own record on return, or `failed`
set by the worker's handler (worker.py line 88) when the task raised. -/
def observedStage : UploadBehavior → String
  | .returns rec => rec.stage
  | .raises _ => "failed"

/-- worker.py lines 80-89: iterate over `CLOUDS` filtered to the selected
names, run the upload task for each, catching per-destination exceptions
and recording `failed` for that destination only.  The map sends a cloud
name to the stage recorded for it (`none` = record absent/empty). -/
def runUploadLoop (uploads : String → UploadBehavior) (to_upload : List String)
    (clouds : String → Option String) : String → Option String :=
  to_upload.foldl
    (fun m name =>
      match uploads name with
      | .returns rec => fun n => if n = name then some rec.stage else m n
      | .raises _ => fun n => if n = name then some "failed" else m n)
    clouds

/-- One iteration of the loop at worker.py lines 102-105: update the pair
`(upload_failed, all_skipped_or_completed)` from one destination's
recorded stage. -/
def aggStep (clouds : String → Option String) (p : Bool × Bool) (name : String) :
    Bool × Bool :=
  if clouds name = some "failed" then (true, false)
  else if clouds name = some "completed" ∨ clouds name = some "skipped" then p
  else (p.1, false)

/-- worker.py lines 101-105: the loop computing `upload_failed` and
`all_skipped_or_completed` over the selected destinations' recorded
stages. -/
def aggFlags (selected : List String) (clouds : String → Option String) : Bool × Bool :=
  selected.foldl (aggStep clouds) (false, true)

/-- worker.py lines 97-108: the terminal status aggregation.  `status` is
`progress_data['status']` at that point; the indeterminate fall-through
leaves the job at `processing` and logs a warning (line 108). -/
def finalStatus (download_cancelled : Bool) (status : String) (selected : List String)
    (clouds : String → Option String) : String :=
  if download_cancelled then "cancelled"
  else if status = "failed" then "failed"
  else if (aggFlags selected clouds).1 then "failed"
  else if (aggFlags selected clouds).2 then "completed"
  else "processing"

/-- Modelled from the claim/spec wording, for comparison with
`finalStatus`: `cancelled` if cancellation was observed, else `failed` if
the download failed or some selected destination failed, else `completed`
if every selected destination completed or was skipped, else an
indeterminate status. -/
def specFinalStatus (cancel_observed download_failed : Bool) (selected : List String)
    (clouds : String → Option String) : String :=
  if cancel_observed then "cancelled"
  else if download_failed = true ∨ ∃ n ∈ selected, clouds n = some "failed" then "failed"
  else if ∀ n ∈ selected, clouds n = some "completed" ∨ clouds n = some "skipped" then
    "completed"
  else "processing"

/-- The inputs determining one run of the worker's transfer phase:
the selected destination names, the download outcome, whether the cancel
sentinel exists at the post-download re-check (worker.py line 68), and
each destination's upload behaviour. -/
structure WorkerInput where
  selected : List String
  dl : DlOutcome
  cancelAfterDl : Bool
  uploads : String → UploadBehavior

/-- The worker's observable state when the `try` body of worker.py lines
53-120 finishes (or its `except` handler does), before the `finally`
block runs. -/
structure BodyState where
  status : String
  dlStage : Option String
  clouds : String → Option String
  attempted : List String
  tempExists : Bool
  cancelFileExists : Bool
  statusWritten : Bool

/-- The worker's observable state after the `finally` block of worker.py
lines 122-147. -/
structure WorkerResult where
  finalStat : String
  dlStage : Option String
  clouds : String → Option String
  attempted : List String
  tempExists : Bool
  cancelFileExists : Bool
  statusWritten : Bool

/-- worker.py lines 53-120: the `try` body (download, cancel re-check,
upload loop, terminal aggregation) and the `except` handler, producing the
state the `finally` block starts from.  `fun _ => none` is the initial
`clouds` map: every selected name starts as an empty record (line 26). -/
def worker_body (inp : WorkerInput) : BodyState :=
  let clouds0 : String → Option String := fun _ => none
  match inp.dl with
  | .raised _ =>
      -- the download task recorded stage/status `failed` (tasks.py lines
      -- 330-331) and re-raised; the worker's handler (lines 112-120)
      -- keeps status `failed`.  `e` only feeds the logged message.
      { status := "failed", dlStage := some "failed", clouds := clouds0,
        attempted := [], tempExists := true,
        cancelFileExists := inp.cancelAfterDl, statusWritten := false }
  | .cancelledSignal =>
      -- the download task removed the partial file and the sentinel and
      -- recorded `cancelled` (tasks.py lines 277-285); the worker skips
      -- uploads and line 98 makes the final status `cancelled`.
      { status := "cancelled", dlStage := some "cancelled", clouds := clouds0,
        attempted := [], tempExists := false,
        cancelFileExists := false, statusWritten := false }
  | .ok size =>
      if inp.cancelAfterDl then
        -- worker.py lines 68-75: sentinel found after the download; the
        -- sentinel is left for the `finally` block to remove.
        { status := "cancelled", dlStage := some "cancelled", clouds := clouds0,
          attempted := [], tempExists := true,
          cancelFileExists := true, statusWritten := false }
      else if 0 < size ∧ inp.selected ≠ [] then
        let attempted := cloudNames.filter (fun c => inp.selected.contains c)
        let clouds1 := runUploadLoop inp.uploads attempted clouds0
        { status := finalStatus false "processing" inp.selected clouds1,
          dlStage := some "completed", clouds := clouds1, attempted := attempted,
          tempExists := true, cancelFileExists := false, statusWritten := false }
      else if size = 0 then
        -- worker.py lines 92-95: zero-byte download, uploads skipped,
        -- status forced to `failed` before aggregation.
        { status := finalStatus false "failed" inp.selected clouds0,
          dlStage := some "completed", clouds := clouds0, attempted := [],
          tempExists := true, cancelFileExists := false, statusWritten := false }
      else
        -- nonzero download but no destination selected: no branch of the
        -- upload conditional fires, aggregation runs on `processing`.
        { status := finalStatus false "processing" inp.selected clouds0,
          dlStage := some "completed", clouds := clouds0, attempted := [],
          tempExists := true, cancelFileExists := false, statusWritten := false }

/-- worker.py lines 122-147: the `finally` block — remove the temp file if
present, remove the cancel sentinel if present, write the final status
document. -/
def worker_cleanup (b : BodyState) : WorkerResult :=
  { finalStat := b.status, dlStage := b.dlStage, clouds := b.clouds,
    attempted := b.attempted, tempExists := false, cancelFileExists := false,
    statusWritten := true }

/-- worker.py `main`'s transfer phase: the `try`/`except` body followed by
the `finally` cleanup. -/
def worker_main (inp : WorkerInput) : WorkerResult :=
  worker_cleanup (worker_body inp)

/-! ## Claims C1, C5, C7, C10 -/

/-- The fold of `aggFlags`, generalized over the accumulator: the first
flag is `upload_failed` (some stage is `failed`), the second is
`all_skipped_or_completed`. -/
theorem aggFlags_go (clouds : String → Option String) :
    ∀ (selected : List String) (b1 b2 : Bool),
      selected.foldl (aggStep clouds) (b1, b2)
        = (b1 || selected.any (fun n => clouds n = some "failed"),
           b2 && selected.all (fun n =>
             decide (clouds n = some "completed") || decide (clouds n = some "skipped")))
  | [], b1, b2 => by simp
  | a :: t, b1, b2 => by
    rw [List.foldl_cons, List.any_cons, List.all_cons]
    by_cases h1 : clouds a = some "failed"
    · have hstep : aggStep clouds (b1, b2) a = (true, false) := by
        simp [aggStep, h1]
      rw [hstep, aggFlags_go clouds t true false]
      simp [h1]
    · by_cases h2 : clouds a = some "completed" ∨ clouds a = some "skipped"
      · have hstep : aggStep clouds (b1, b2) a = (b1, b2) := by
          simp [aggStep, h1, h2]
        rw [hstep, aggFlags_go clouds t b1 b2]
        rcases h2 with h2 | h2 <;> simp [h1, h2]
      · have hstep : aggStep clouds (b1, b2) a = (b1, false) := by
          simp [aggStep, h1, h2]
        rw [hstep, aggFlags_go clouds t b1 false]
        push_neg at h2
        simp [h1, h2.1, h2.2]

/-- `aggFlags` in terms of the selected destinations' stages. -/
theorem aggFlags_spec (selected : List String) (clouds : String → Option String) :
    aggFlags selected clouds
      = (selected.any (fun n => clouds n = some "failed"),
         selected.all (fun n =>
           decide (clouds n = some "completed") || decide (clouds n = some "skipped"))) := by
  unfold aggFlags
  simpa using aggFlags_go clouds selected false true

/-- C1: the worker's terminal aggregation (worker.py lines 97-110) equals
the claimed rule: `cancelled` if cancellation was observed at any point;
else `failed` if the job-level status records a failure (set exactly by a
failed or zero-byte download) or at least one selected destination's
stage is `failed`; else `completed` if every selected destination's stage
is `completed` or `skipped`; any remaining combination yields
`processing`, which is logged as indeterminate and is not the success
status — whenever the aggregation reports `completed`, no cancellation was
observed, no failure was recorded, and every selected destination
completed or was skipped. -/
theorem final_status_aggregation_spec (dc : Bool) (status : String)
    (selected : List String) (clouds : String → Option String) :
    finalStatus dc status selected clouds
        = specFinalStatus dc (decide (status = "failed")) selected clouds ∧
      (finalStatus dc status selected clouds = "completed" →
        dc = false ∧ status ≠ "failed" ∧
          ∀ n ∈ selected, clouds n = some "completed" ∨ clouds n = some "skipped") := by
  have hfst : (aggFlags selected clouds).1
      = selected.any (fun n => clouds n = some "failed") := by
    rw [aggFlags_spec]
  have hsnd : (aggFlags selected clouds).2
      = selected.all (fun n =>
          decide (clouds n = some "completed") || decide (clouds n = some "skipped")) := by
    rw [aggFlags_spec]
  have heq : finalStatus dc status selected clouds
      = specFinalStatus dc (decide (status = "failed")) selected clouds := by
    unfold finalStatus specFinalStatus
    cases dc
    · simp only [Bool.false_eq_true, if_false]
      by_cases hs : status = "failed"
      · simp [hs]
      · rw [if_neg hs, hfst, hsnd]
        by_cases hex : ∃ n ∈ selected, clouds n = some "failed"
        · have hany : (selected.any fun n => clouds n = some "failed") = true := by
            rw [List.any_eq_true]
            rcases hex with ⟨n, hn, h⟩
            exact ⟨n, hn, by simpa using h⟩
          rw [hany, if_pos rfl, if_pos (Or.inr hex)]
        · have hany : (selected.any fun n => clouds n = some "failed") = false := by
            rw [Bool.eq_false_iff]
            intro hc
            rw [List.any_eq_true] at hc
            rcases hc with ⟨n, hn, h⟩
            exact hex ⟨n, hn, by simpa using h⟩
          rw [hany, if_neg (by simp),
            if_neg (show ¬(decide (status = "failed") = true ∨
              ∃ n ∈ selected, clouds n = some "failed") from by
                push_neg
                exact ⟨by simp [hs], fun n hn h => hex ⟨n, hn, h⟩⟩)]
          by_cases hall : ∀ n ∈ selected,
              clouds n = some "completed" ∨ clouds n = some "skipped"
          · have hallb : (selected.all fun n =>
                decide (clouds n = some "completed")
                  || decide (clouds n = some "skipped")) = true := by
              rw [List.all_eq_true]
              intro n hn
              rcases hall n hn with h | h <;> simp [h]
            rw [hallb, if_pos rfl, if_pos hall]
          · have hallb : (selected.all fun n =>
                decide (clouds n = some "completed")
                  || decide (clouds n = some "skipped")) = false := by
              rw [Bool.eq_false_iff]
              intro hc
              rw [List.all_eq_true] at hc
              exact hall fun n hn => by simpa using hc n hn
            rw [hallb, if_neg (by simp), if_neg hall]
    · simp
  refine ⟨heq, fun hc => ?_⟩
  rw [heq] at hc
  unfold specFinalStatus at hc
  by_cases h1 : dc = true
  · rw [if_pos h1] at hc
    exact absurd hc (by decide)
  · rw [if_neg h1] at hc
    refine ⟨by simpa using h1, ?_⟩
    by_cases h2 : decide (status = "failed") = true ∨ ∃ n ∈ selected, clouds n = some "failed"
    · rw [if_pos h2] at hc
      exact absurd hc (by decide)
    · rw [if_neg h2] at hc
      push_neg at h2
      refine ⟨by simpa using h2.1, ?_⟩
      by_cases h3 : ∀ n ∈ selected, clouds n = some "completed" ∨ clouds n = some "skipped"
      · exact h3
      · rw [if_neg h3] at hc
        exact absurd hc (by decide)

/-- C1 (witness): a job with no cancellation, no recorded failure and two
destinations, one completed and one skipped, aggregates to `completed`. -/
theorem final_status_aggregation_spec_witness :
    finalStatus false "processing" ["Wasabi", "Cloudflare R2"]
        (fun n => if n = "Wasabi" then some "completed" else some "skipped")
      = "completed" := by
  have h := (final_status_aggregation_spec false "processing" ["Wasabi", "Cloudflare R2"]
    (fun n => if n = "Wasabi" then some "completed" else some "skipped")).1
  rw [h]
  rfl

/-- C5: a job whose download completes successfully with zero bytes gets
final status `failed` (worker.py lines 92-95 force the status before
aggregation) and no upload is attempted for any selected destination (the
upload branch at line 77 requires a positive size). -/
theorem zero_byte_download_fails_no_uploads (selected : List String)
    (uploads : String → UploadBehavior) :
    (worker_main ⟨selected, .ok 0, false, uploads⟩).finalStat = "failed" ∧
      (worker_main ⟨selected, .ok 0, false, uploads⟩).attempted = [] := by
  unfold worker_main worker_body worker_cleanup
  simp [finalStatus]

/-- C7: on every exit path of the worker's main transfer phase — success,
failure, cancellation, or an unexpected exception from the download —
the `finally` block leaves the temp file deleted, the cancel sentinel
deleted, and the final status document written, and the written status is
exactly the one the body determined. -/
theorem worker_cleanup_all_paths (inp : WorkerInput) :
    (worker_main inp).tempExists = false ∧
      (worker_main inp).cancelFileExists = false ∧
      (worker_main inp).statusWritten = true ∧
      (worker_main inp).finalStat = (worker_body inp).status := by
  exact ⟨rfl, rfl, rfl, rfl⟩

/-- C10: a job invoked with an empty selected-destination list whose
download succeeds with a non-zero byte count and no cancellation ends with
final status `completed` — the aggregation loop over zero destinations
leaves `upload_failed = false` and `all_skipped_or_completed = true` —
even though no upload was performed. -/
theorem empty_selection_completes (size : Nat) (uploads : String → UploadBehavior)
    (hsz : 0 < size) :
    (worker_main ⟨[], .ok size, false, uploads⟩).finalStat = "completed" ∧
      (worker_main ⟨[], .ok size, false, uploads⟩).attempted = [] := by
  unfold worker_main worker_body worker_cleanup
  simp [Nat.pos_iff_ne_zero.mp hsz, finalStatus, aggFlags, aggStep]

/-- C10 (witness): a 7-byte download with no destinations selected. -/
theorem empty_selection_completes_witness :
    (worker_main ⟨[], .ok 7, false, fun _ => .raises "unused"⟩).finalStat
      = "completed" := by
  exact (empty_selection_completes 7 (fun _ => .raises "unused") (by norm_num)).1

/-- Destinations not touched by the upload loop keep their previous
record. -/
theorem runUploadLoop_not_mem (uploads : String → UploadBehavior) :
    ∀ (l : List String) (m : String → Option String) (c : String),
      c ∉ l → runUploadLoop uploads l m c = m c
  | [], _, _, _ => rfl
  | a :: t, m, c, hc => by
    have hca : c ≠ a := fun h => hc (h ▸ List.mem_cons_self a t)
    have hct : c ∉ t := fun h => hc (List.mem_cons_of_mem a h)
    show runUploadLoop uploads t _ c = m c
    cases h : uploads a with
    | returns rec =>
        rw [runUploadLoop_not_mem uploads t _ c hct]
        simp [h, hca]
    | raises e =>
        rw [runUploadLoop_not_mem uploads t _ c hct]
        simp [h, hca]

/-- A destination in the upload loop's (duplicate-free) worklist ends with
the stage determined by its own upload behaviour alone. -/
theorem runUploadLoop_mem (uploads : String → UploadBehavior) :
    ∀ (l : List String) (m : String → Option String) (c : String),
      l.Nodup → c ∈ l → runUploadLoop uploads l m c = some (observedStage (uploads c))
  | a :: t, m, c, hnd, hc => by
    have hat : a ∉ t := (List.nodup_cons.mp hnd).1
    have hnt : t.Nodup := (List.nodup_cons.mp hnd).2
    rcases List.mem_cons.mp hc with hca | hct
    · subst hca
      show runUploadLoop uploads t _ c = _
      have hnot : c ∉ t := hat
      cases h : uploads c with
      | returns rec =>
          rw [runUploadLoop_not_mem uploads t _ c hnot]
          simp [h, observedStage]
      | raises e =>
          rw [runUploadLoop_not_mem uploads t _ c hnot]
          simp [h, observedStage]
    · show runUploadLoop uploads t _ c = _
      cases h : uploads a with
      | returns rec => exact runUploadLoop_mem uploads t _ c hnt hct
      | raises e => exact runUploadLoop_mem uploads t _ c hnt hct

/-- C9: for a job whose download succeeded with a positive size and at
least one selected destination, every selected destination that exists in
the catalog is attempted, and the stage recorded for it is a function of
its own upload behaviour only (`failed` when its task raised) — so an
exception while uploading to one destination marks that destination alone
and leaves every sibling's attempt and outcome untouched. -/
theorem upload_failure_isolated (selected : List String)
    (uploads : String → UploadBehavior) (size : Nat) (c : String)
    (hsz : 0 < size) (hsel : selected ≠ []) (hc : c ∈ cloudNames)
    (hcs : selected.contains c = true) :
    (worker_main ⟨selected, .ok size, false, uploads⟩).clouds c
        = some (observedStage (uploads c)) ∧
      c ∈ (worker_main ⟨selected, .ok size, false, uploads⟩).attempted := by
  have hmem : c ∈ cloudNames.filter (fun n => selected.contains n) :=
    List.mem_filter.mpr ⟨hc, hcs⟩
  have hnd : (cloudNames.filter (fun n => selected.contains n)).Nodup :=
    List.Nodup.filter _ (by decide)
  simp only [worker_main, worker_body, worker_cleanup]
  rw [if_neg (by simp), if_pos ⟨hsz, hsel⟩]
  exact ⟨runUploadLoop_mem uploads _ _ c hnd hmem, hmem⟩

/-- C9 (witness): two destinations selected, the Wasabi task raises, the
Oracle Cloud task completes; Oracle Cloud's record is `completed` and it
was attempted. -/
theorem upload_failure_isolated_witness :
    (worker_main ⟨["Wasabi", "Oracle Cloud"], .ok 5, false,
        fun n => if n = "Wasabi" then .raises "boom"
          else .returns ⟨"completed", 100, .completedUrl true⟩⟩).clouds "Oracle Cloud"
        = some "completed" ∧
      "Oracle Cloud" ∈ (worker_main ⟨["Wasabi", "Oracle Cloud"], .ok 5, false,
        fun n => if n = "Wasabi" then .raises "boom"
          else .returns ⟨"completed", 100, .completedUrl true⟩⟩).attempted := by
  have h := upload_failure_isolated ["Wasabi", "Oracle Cloud"]
    (fun n => if n = "Wasabi" then .raises "boom"
      else .returns ⟨"completed", 100, .completedUrl true⟩)
    5 "Oracle Cloud" (by norm_num) (by simp) (by decide) (by decide)
  exact ⟨h.1.trans (by rfl), h.2⟩

/-! ## Download stage (tasks.py `download_file_with_progress_task`,
lines 248-334)

The streaming loop is modelled as a fold over a list of chunk events.
Each event carries the wall-clock instants at which the loop samples the
clock (`t1` for the cancel check of line 274, `t2` for the progress check
of line 295), whether the cancel sentinel exists at the moment of the
check, and the chunk's byte length (0 = the empty chunk skipped at line
288).  An exception from the HTTP iteration is modelled as an optional
trailing error, handled by the `except` block of lines 316-333. -/

/-- One iteration of the chunk loop: observed times, sentinel presence at
the cancel check, and chunk size. -/
structure ChunkEvent where
  t1 : ℚ
  cancelNow : Bool
  size : Nat
  t2 : ℚ
  deriving DecidableEq, Repr

/-- The download loop's state: the loop variables of tasks.py lines
260-265 plus the observable effects (the progress percentages emitted by
the update logic of lines 292-307, whether the partial file and the
sentinel exist, and the stage/status last stored in the status
document). -/
structure DlState where
  downloaded_size : Nat
  last_cancel_check : ℚ
  last_progress_update : ℚ
  last_bytes : Nat
  percentage : Nat
  speed : ℚ
  emitted : List Nat
  temp_exists : Bool
  cancel_file_exists : Bool
  stage : String
  job_status : String
  deriving DecidableEq, Repr

/-- State at the start of the loop (tasks.py lines 250-265): the initial
`downloading` record with percentage 0 has been written. -/
def dlInit (start_time : ℚ) : DlState :=
  { downloaded_size := 0, last_cancel_check := start_time,
    last_progress_update := start_time, last_bytes := 0, percentage := 0,
    speed := 0, emitted := [0], temp_exists := true, cancel_file_exists := false,
    stage := "downloading", job_status := "processing" }

/-- tasks.py lines 288-307: write the chunk and run the progress-update
logic (percentage recomputed whenever `total_size > 0`; an update is
emitted, with a fresh speed estimate, only when more than one second
passed since the last emission). -/
def dlChunkBody (total : Nat) (st : DlState) (ev : ChunkEvent) : DlState :=
  if ev.size = 0 then st
  else
    let d := st.downloaded_size + ev.size
    if 0 < total then
      let pct := min (d * 100 / total) 100
      if ev.t2 - st.last_progress_update > 1 then
        let time_diff := ev.t2 - st.last_progress_update
        let speed := if time_diff > 0 then ((d : ℚ) - (st.last_bytes : ℚ)) / time_diff else 0
        { st with downloaded_size := d, percentage := pct, speed := speed,
                  last_progress_update := ev.t2, last_bytes := d,
                  emitted := st.emitted ++ [pct] }
      else { st with downloaded_size := d, percentage := pct }
    else { st with downloaded_size := d }

/-- Result of one loop iteration: either the cancellation path of tasks.py
lines 277-285 fired, or the loop continues. -/
inductive StepResult where
  | cancelled (st : DlState)
  | next (st : DlState)
  deriving DecidableEq, Repr

/-- tasks.py lines 273-307: one full iteration — the ~1-second cancel
polling check first (lines 275-286), then the chunk body.  On observing
the sentinel: the partial file is removed, the download record becomes
`cancelled` (keeping the current percentage, line 281), the job status
becomes `cancelled`, and the sentinel is removed. -/
def dlStep (total : Nat) (st : DlState) (ev : ChunkEvent) : StepResult :=
  if ev.t1 - st.last_cancel_check > 1 then
    if ev.cancelNow then
      .cancelled { st with temp_exists := false, stage := "cancelled",
                           job_status := "cancelled", cancel_file_exists := false }
    else .next (dlChunkBody total { st with last_cancel_check := ev.t1 } ev)
  else .next (dlChunkBody total st ev)

/-- The download task's result as the caller sees it: `(path, size)` on
success, the `(None, -1)` cancellation signal, or a propagated
exception (tasks.py line 333 re-raises). -/
inductive DlTaskResult where
  | ok (st : DlState) (size : Nat)
  | cancelledSignal (st : DlState)
  | raised (st : DlState) (e : String)
  deriving DecidableEq, Repr

/-- The status-document state carried by a task result. -/
def DlTaskResult.state : DlTaskResult → DlState
  | .ok st _ => st
  | .cancelledSignal st => st
  | .raised st _ => st

/-- Whether the result is the cancellation signal. -/
def DlTaskResult.isCancelledSignal : DlTaskResult → Bool
  | .cancelledSignal _ => true
  | _ => false

/-- Whether the result is a propagated exception. -/
def DlTaskResult.isRaised : DlTaskResult → Bool
  | .raised _ _ => true
  | _ => false

/-- tasks.py lines 256-333, `download_file_with_progress_task`: run the
chunk loop; if the HTTP iteration raises afterwards (`tail_err = some (e,
cancel_at_except)`), the except block either converts it into the
cancellation signal (sentinel present: partial file removed, record
`cancelled` with percentage 0, sentinel removed, lines 319-326) or records
`failed` and re-raises (lines 327-333).  A completed loop writes the final
`completed` record with percentage 100 (lines 311-314). -/
def download_file_with_progress_task (total : Nat) :
    DlState → List ChunkEvent → Option (String × Bool) → DlTaskResult
  | st, [], none =>
      .ok { st with stage := "completed", percentage := 100,
                    emitted := st.emitted ++ [100] } st.downloaded_size
  | st, [], some (e, cancel_at_except) =>
      if cancel_at_except then
        .cancelledSignal { st with temp_exists := false, stage := "cancelled",
                                   percentage := 0, job_status := "cancelled",
                                   cancel_file_exists := false }
      else
        .raised { st with stage := "failed", percentage := 0, job_status := "failed" } e
  | st, ev :: evs, tail_err =>
      match dlStep total st ev with
      | .cancelled st' => .cancelledSignal st'
      | .next st' => download_file_with_progress_task total st' evs tail_err

/-! ## Claims C6, C8 -/

/-- C6: whenever the ~1-second polling check of the download loop fires
(more than one second since the last check) and the cancel sentinel is
present, the task stops with: partial file removed, download stage
`cancelled`, job status `cancelled`, sentinel removed; and the result is
the dedicated cancellation signal — the `(None, -1)` return of tasks.py
line 285 — not a raised exception, so the caller cannot mistake it for an
ordinary failure. -/
theorem cancel_observed_in_download_loop (total : Nat) (st : DlState) (ev : ChunkEvent)
    (evs : List ChunkEvent) (tail_err : Option (String × Bool))
    (hfire : ev.t1 - st.last_cancel_check > 1) (hcancel : ev.cancelNow = true) :
    (download_file_with_progress_task total st (ev :: evs) tail_err).isCancelledSignal
        = true ∧
      (download_file_with_progress_task total st (ev :: evs) tail_err).isRaised = false ∧
      (download_file_with_progress_task total st (ev :: evs) tail_err).state.temp_exists
        = false ∧
      (download_file_with_progress_task total st (ev :: evs) tail_err).state.stage
        = "cancelled" ∧
      (download_file_with_progress_task total st (ev :: evs) tail_err).state.job_status
        = "cancelled" ∧
      (download_file_with_progress_task total st (ev :: evs)
          tail_err).state.cancel_file_exists = false := by
  have hstep : dlStep total st ev
      = .cancelled { st with temp_exists := false, stage := "cancelled",
                             job_status := "cancelled", cancel_file_exists := false } := by
    unfold dlStep
    rw [if_pos hfire, if_pos hcancel]
  simp [download_file_with_progress_task, hstep, DlTaskResult.isCancelledSignal,
    DlTaskResult.isRaised, DlTaskResult.state]

/-- C6 (witness): a download with one chunk event 2 seconds after the last
cancel check, sentinel present. -/
theorem cancel_observed_in_download_loop_witness :
    (download_file_with_progress_task 100 (dlInit 0) [⟨2, true, 4, 2⟩] none).isCancelledSignal
        = true ∧
      (download_file_with_progress_task 100 (dlInit 0)
          [⟨2, true, 4, 2⟩] none).state.temp_exists = false := by
  have h := cancel_observed_in_download_loop 100 (dlInit 0) ⟨2, true, 4, 2⟩ [] none
    (by norm_num [dlInit]) rfl
  exact ⟨h.1, h.2.2.1⟩

/-- Invariant of the download loop: the emitted progress percentages form
a non-decreasing chain bounded by 100, all of them at most the current
percentage, and the current percentage is at most the percentage the
current byte count would yield (so future recomputations can only grow). -/
def DlInv (total : Nat) (st : DlState) : Prop :=
  List.Chain' (· ≤ ·) st.emitted ∧ (∀ p ∈ st.emitted, p ≤ 100) ∧
    (∀ p ∈ st.emitted, p ≤ st.percentage) ∧
    st.percentage ≤ min (st.downloaded_size * 100 / total) 100

/-- The loop's initial state satisfies the invariant. -/
theorem dlInit_inv (total : Nat) (start_time : ℚ) : DlInv total (dlInit start_time) := by
  refine ⟨?_, ?_, ?_, ?_⟩ <;> simp [dlInit]

/-- The chunk body preserves the invariant. -/
theorem dlChunkBody_inv (total : Nat) (st : DlState) (ev : ChunkEvent)
    (h : DlInv total st) : DlInv total (dlChunkBody total st ev) := by
  obtain ⟨hchain, hb100, hble, hple⟩ := h
  unfold dlChunkBody
  by_cases h0 : ev.size = 0
  · simpa [h0] using ⟨hchain, hb100, hble, hple⟩
  · rw [if_neg h0]
    by_cases ht : 0 < total
    · rw [if_pos ht]
      have hmono : st.percentage
          ≤ min ((st.downloaded_size + ev.size) * 100 / total) 100 := by
        refine hple.trans (min_le_min ?_ le_rfl)
        exact Nat.div_le_div_right (Nat.mul_le_mul_right _ (Nat.le_add_right _ _))
      by_cases htime : ev.t2 - st.last_progress_update > 1
      · rw [if_pos htime]
        refine ⟨?_, ?_, ?_, ?_⟩
        · rw [List.chain'_append]
          refine ⟨hchain, List.chain'_singleton _, ?_⟩
          intro x hx y hy
          simp only [List.head?_cons, Option.mem_def, Option.some.injEq] at hy
          subst hy
          exact (hble x (List.mem_of_mem_getLast? hx)).trans hmono
        · intro p hp
          rcases List.mem_append.mp hp with hp | hp
          · exact hb100 p hp
          · simp only [List.mem_singleton] at hp
            subst hp
            exact min_le_right _ _
        · intro p hp
          rcases List.mem_append.mp hp with hp | hp
          · exact (hble p hp).trans hmono
          · simp only [List.mem_singleton] at hp
            subst hp
            exact le_rfl
        · exact le_rfl
      · rw [if_neg htime]
        exact ⟨hchain, hb100, fun p hp => (hble p hp).trans hmono, le_rfl⟩
    · rw [if_neg ht]
      have ht0 : total = 0 := Nat.eq_zero_of_not_pos ht
      subst ht0
      refine ⟨hchain, hb100, hble, ?_⟩
      simpa using hple

/-- The state carried by a step outcome. -/
def StepResult.state : StepResult → DlState
  | .cancelled s => s
  | .next s => s

/-- Both outcomes of one loop iteration preserve the invariant (the
cancellation path only changes flags the invariant does not mention). -/
theorem dlStep_inv (total : Nat) (st : DlState) (ev : ChunkEvent) (h : DlInv total st) :
    DlInv total (dlStep total st ev).state := by
  unfold dlStep
  by_cases hfire : ev.t1 - st.last_cancel_check > 1
  · rw [if_pos hfire]
    by_cases hcan : ev.cancelNow = true
    · rw [if_pos hcan]
      exact h
    · rw [if_neg hcan]
      exact dlChunkBody_inv total _ ev h
  · rw [if_neg hfire]
    exact dlChunkBody_inv total st ev h

/-- Running the whole task from any state satisfying the invariant yields
an emitted progress stream that is a non-decreasing chain bounded by
100. -/
theorem dl_run_chain (total : Nat) :
    ∀ (evs : List ChunkEvent) (st : DlState) (tail_err : Option (String × Bool)),
      DlInv total st →
        List.Chain' (· ≤ ·)
            (download_file_with_progress_task total st evs tail_err).state.emitted ∧
          ∀ p ∈ (download_file_with_progress_task total st evs tail_err).state.emitted,
            p ≤ 100
  | [], st, none, h => by
    unfold download_file_with_progress_task
    constructor
    · rw [DlTaskResult.state, List.chain'_append]
      refine ⟨h.1, List.chain'_singleton _, ?_⟩
      intro x hx y hy
      simp only [List.head?_cons, Option.mem_def, Option.some.injEq] at hy
      subst hy
      exact h.2.1 x (List.mem_of_mem_getLast? hx)
    · intro p hp
      rw [DlTaskResult.state] at hp
      rcases List.mem_append.mp hp with hp | hp
      · exact h.2.1 p hp
      · simp only [List.mem_singleton] at hp
        subst hp
        exact le_rfl
  | [], st, some (e, cancel_at_except), h => by
    unfold download_file_with_progress_task
    by_cases hb : cancel_at_except = true
    · rw [if_pos hb]
      exact ⟨h.1, h.2.1⟩
    · rw [if_neg hb]
      exact ⟨h.1, h.2.1⟩
  | ev :: evs, st, tail_err, h => by
    rw [show download_file_with_progress_task total st (ev :: evs) tail_err
        = (match dlStep total st ev with
           | .cancelled st' => .cancelledSignal st'
           | .next st' => download_file_with_progress_task total st' evs tail_err)
      from rfl]
    have hinv := dlStep_inv total st ev h
    cases hstep : dlStep total st ev with
    | cancelled st' =>
        rw [hstep] at hinv
        exact ⟨hinv.1, hinv.2.1⟩
    | next st' =>
        rw [hstep] at hinv
        exact dl_run_chain total evs st' tail_err hinv

/-- C8: over any single download — any chunk sequence, any trailing
transport error, and in particular any `total` including 0 (no
content-length header) — the percentages emitted in progress updates form
a non-decreasing sequence and each lies in [0, 100] (the lower bound is
inherent to `Nat`). -/
theorem download_percentage_monotone_bounded (total : Nat) (start_time : ℚ)
    (events : List ChunkEvent) (tail_err : Option (String × Bool)) :
    List.Chain' (· ≤ ·)
        (download_file_with_progress_task total (dlInit start_time)
          events tail_err).state.emitted ∧
      ∀ p ∈ (download_file_with_progress_task total (dlInit start_time)
          events tail_err).state.emitted, p ≤ 100 :=
  dl_run_chain total events (dlInit start_time) tail_err (dlInit_inv total start_time)

end MultiCloudUploader
